import Mathlib

/-!
Verification of `flask_graphql_auth/decorators.py`.

The module is embedded shallowly:
* A decoded JWT payload (a Python `dict`) is a `Payload`, an association
  list of string keys to JSON values, looked up with `pyLookup`.
* The external library call `jwt.decode(encoded_token, secret,
  algorithms=[algorithm])` is a parameter `f : JwtDecode`: a pure function
  of the token string, the secret and the algorithm name, returning either
  the structurally decoded payload or the library's failure.
* Python exceptions become the `AuthError` sum: `JWTDecodeError` and
  `WrongTokenError` from `exceptions.py`, `pyJWTError` for exceptions the
  `jwt` library itself raises, and `keyError` for a Python `KeyError`
  raised by a failing `d[k]` subscript.
* `current_app.config` is a `Config` record holding the keys the module
  reads (`JWT_SECRET_KEY`, `JWT_IDENTITY_CLAIM`, `JWT_USER_CLAIMS`,
  `JWT_TOKEN_ARGUMENT_NAME`).  Flask's config is an open mapping, so the
  record also carries the `JWT_ALGORITHM` entry that the specification
  lists among the verification parameters; `decorators.py` never reads it.
* The Flask application-context slot `ctx_stack.top.jwt` is the `jwt`
  field of a `Ctx` record threaded explicitly; decorated handlers receive
  the context so that they can observe the stored claim set.
-/

/-- A JSON value as it appears inside a decoded JWT payload.  The module
only ever compares payload values with strings and inserts the empty
mapping `{}`, so strings, integers and objects cover every case the code
distinguishes. -/
inductive JVal where
  | str (s : String)
  | num (n : Int)
  | obj (fields : List (String × JVal))

/-- A decoded token payload: a Python `dict` with string keys. -/
abbrev Payload := List (String × JVal)

/-- The keyword arguments of a handler invocation.  The guard reads a raw
token string out of them, so values are modelled as strings. -/
abbrev Kwargs := List (String × String)

/-- Python `d[k]` / `k in d` lookup on a string-keyed mapping: the first
binding of the key, if any. -/
def pyLookup {β : Type} : List (String × β) → String → Option β
  | [], _ => none
  | (k2, v) :: t, k => if k2 = k then some v else pyLookup t k

/-- Python `k in d` membership for a payload. -/
def hasKey (d : Payload) (k : String) : Bool :=
  (pyLookup d k).isSome

/-- Python `==` between a payload value and a string literal: only a
string value can compare equal to a string. -/
def jvalEqStr : JVal → String → Bool
  | .str s, t => s = t
  | _, _ => false

/-- The exceptions observable from the module: the package's own
`JWTDecodeError` and `WrongTokenError`, the underlying `jwt` library's
failures, and Python's `KeyError`. -/
inductive AuthError where
  | jwtDecodeError (msg : String)
  | wrongTokenError (msg : String)
  | pyJWTError (msg : String)
  | keyError (key : String)

/-- The external `jwt.decode(encoded_token, secret, algorithms=[algorithm])`
call: token string, secret, algorithm name to decoded payload or library
failure. -/
def JwtDecode := String → String → String → Except AuthError Payload

/-- The entries of `current_app.config` that matter here.  The last field
records the `JWT_ALGORITHM` configuration entry of the spec's verification
parameters; `decorators.py` never reads it. -/
structure Config where
  JWT_SECRET_KEY : String
  JWT_IDENTITY_CLAIM : String
  JWT_USER_CLAIMS : String
  JWT_TOKEN_ARGUMENT_NAME : String
  JWT_ALGORITHM : String

/-- The request-scoped application context: `ctx_stack.top`, whose `jwt`
attribute the verifiers assign. -/
structure Ctx where
  jwt : Option Payload

/-- The check `'type' not in data or data['type'] not in ('refresh', 'access')`
from `decode_jwt`, as the condition under which the payload's type claim is
acceptable. -/
def typeClaimOk (data : Payload) : Bool :=
  match pyLookup data "type" with
  | none => false
  | some v => jvalEqStr v "refresh" || jvalEqStr v "access"

/-- `decode_jwt` from `decorators.py`: run the library decode, then check
`jti`, the identity claim key, and the `type` claim in that order, raising
`JWTDecodeError` at the first failure; finally default the user-claims key
to an empty mapping when absent. -/
def decode_jwt (f : JwtDecode) (encoded_token secret algorithm
    identity_claim_key user_claims_key : String) : Except AuthError Payload :=
  match f encoded_token secret algorithm with
  | .error e => .error e
  | .ok data =>
    if hasKey data "jti" = false then
      .error (.jwtDecodeError "Missing claim: jti")
    else if hasKey data identity_claim_key = false then
      .error (.jwtDecodeError ("Missing claim: " ++ identity_claim_key))
    else if typeClaimOk data = false then
      .error (.jwtDecodeError "Missing or invalid claim: type")
    else if hasKey data user_claims_key = false then
      .ok (data ++ [(user_claims_key, JVal.obj [])])
    else
      .ok data

/-- `get_jwt_data` from `decorators.py`: decode with the configured secret,
identity claim key and user-claims key and the literal algorithm `'HS256'`,
then reject the payload with `WrongTokenError` unless its `type` claim
equals `token_type`. -/
def get_jwt_data (f : JwtDecode) (cfg : Config) (token token_type : String) :
    Except AuthError Payload :=
  match decode_jwt f token cfg.JWT_SECRET_KEY "HS256"
      cfg.JWT_IDENTITY_CLAIM cfg.JWT_USER_CLAIMS with
  | .error e => .error e
  | .ok jwt_data =>
    match pyLookup jwt_data "type" with
    | none => .error (.keyError "type")
    | some tv =>
      if jvalEqStr tv token_type = false then
        .error (.wrongTokenError ("Only " ++ token_type ++ " tokens are allowed"))
      else
        .ok jwt_data

/-- Modelled from the spec: the variant of `get_jwt_data` the specification
describes, in which the algorithm handed to the decode step is drawn from
the verification-parameters configuration rather than fixed.  Only the
algorithm argument differs from `get_jwt_data`. -/
def get_jwt_data_cfgAlgorithm (f : JwtDecode) (cfg : Config)
    (token token_type : String) : Except AuthError Payload :=
  match decode_jwt f token cfg.JWT_SECRET_KEY cfg.JWT_ALGORITHM
      cfg.JWT_IDENTITY_CLAIM cfg.JWT_USER_CLAIMS with
  | .error e => .error e
  | .ok jwt_data =>
    match pyLookup jwt_data "type" with
    | none => .error (.keyError "type")
    | some tv =>
      if jvalEqStr tv token_type = false then
        .error (.wrongTokenError ("Only " ++ token_type ++ " tokens are allowed"))
      else
        .ok jwt_data

/-- `verify_jwt_in_argument`: fetch the payload as an access token and
store it in the application-context slot. -/
def verify_jwt_in_argument (f : JwtDecode) (cfg : Config) (token : String)
    (ctx : Ctx) : Except AuthError Ctx :=
  match get_jwt_data f cfg token "access" with
  | .error e => .error e
  | .ok jwt_data => .ok { ctx with jwt := some jwt_data }

/-- `verify_refresh_jwt_in_argument`: fetch the payload as a refresh token
and store it in the application-context slot. -/
def verify_refresh_jwt_in_argument (f : JwtDecode) (cfg : Config)
    (token : String) (ctx : Ctx) : Except AuthError Ctx :=
  match get_jwt_data f cfg token "refresh" with
  | .error e => .error e
  | .ok jwt_data => .ok { ctx with jwt := some jwt_data }

/-- The wrapper that `jwt_required` builds around a handler `fn`: look the
token up in the keyword arguments under the configured name (a missing key
is a Python `KeyError`), verify it as an access token, then call the
handler with the original arguments.  The handler receives the context so
it can read the stored claim set; the wrapper's result pairs the final
context with the handler's return value. -/
def jwt_required {A R : Type} (f : JwtDecode) (cfg : Config)
    (fn : Ctx → A → Kwargs → R) (args : A) (kwargs : Kwargs) (ctx : Ctx) :
    Except AuthError (Ctx × R) :=
  match pyLookup kwargs cfg.JWT_TOKEN_ARGUMENT_NAME with
  | none => .error (.keyError cfg.JWT_TOKEN_ARGUMENT_NAME)
  | some token =>
    match verify_jwt_in_argument f cfg token ctx with
    | .error e => .error e
    | .ok ctx2 => .ok (ctx2, fn ctx2 args kwargs)

/-- The wrapper that `jwt_refresh_token_required` builds around a handler:
identical to `jwt_required` except that the token is verified as a refresh
token. -/
def jwt_refresh_token_required {A R : Type} (f : JwtDecode) (cfg : Config)
    (fn : Ctx → A → Kwargs → R) (args : A) (kwargs : Kwargs) (ctx : Ctx) :
    Except AuthError (Ctx × R) :=
  match pyLookup kwargs cfg.JWT_TOKEN_ARGUMENT_NAME with
  | none => .error (.keyError cfg.JWT_TOKEN_ARGUMENT_NAME)
  | some token =>
    match verify_refresh_jwt_in_argument f cfg token ctx with
    | .error e => .error e
    | .ok ctx2 => .ok (ctx2, fn ctx2 args kwargs)

/-! ### Basic lemmas about payload lookup -/

theorem pyLookup_append {β : Type} (d e : List (String × β)) (k : String) :
    pyLookup (d ++ e) k =
      (match pyLookup d k with | some v => some v | none => pyLookup e k) := by
  induction d with
  | nil => rfl
  | cons p t ih =>
    obtain ⟨k2, v⟩ := p
    by_cases h : k2 = k <;> simp [pyLookup, h, ih]

theorem pyLookup_append_of_some {β : Type} {d : List (String × β)} {k : String}
    {v : β} (e : List (String × β)) (h : pyLookup d k = some v) :
    pyLookup (d ++ e) k = some v := by
  rw [pyLookup_append, h]

theorem hasKey_append (d e : Payload) (k : String) :
    hasKey (d ++ e) k = (hasKey d k || hasKey e k) := by
  unfold hasKey
  rw [pyLookup_append]
  cases pyLookup d k <;> simp

theorem jvalEqStr_eq_true {v : JVal} {t : String} :
    jvalEqStr v t = true ↔ v = JVal.str t := by
  cases v <;> simp [jvalEqStr]

theorem typeClaimOk_true_iff (d : Payload) :
    typeClaimOk d = true ↔
      (pyLookup d "type" = some (JVal.str "refresh") ∨
       pyLookup d "type" = some (JVal.str "access")) := by
  unfold typeClaimOk
  cases h : pyLookup d "type" with
  | none => simp
  | some v => simp [jvalEqStr_eq_true]

theorem typeClaimOk_append {d : Payload} (e : Payload)
    (h : typeClaimOk d = true) : typeClaimOk (d ++ e) = true := by
  rw [typeClaimOk_true_iff] at h ⊢
  rcases h with h | h
  · exact Or.inl (pyLookup_append_of_some e h)
  · exact Or.inr (pyLookup_append_of_some e h)

/-- Characterization of the successful runs of `decode_jwt`: exactly the
payloads whose structural decode succeeds and whose `jti`, identity and
`type` claims all check out, with the user-claims default inserted when
the key is absent. -/
theorem decode_jwt_ok_iff (f : JwtDecode) (tok s a ik uk : String)
    (out : Payload) :
    decode_jwt f tok s a ik uk = Except.ok out ↔
      ∃ data, f tok s a = Except.ok data ∧
        hasKey data "jti" = true ∧ hasKey data ik = true ∧
        typeClaimOk data = true ∧
        ((hasKey data uk = false ∧ out = data ++ [(uk, JVal.obj [])]) ∨
         (hasKey data uk = true ∧ out = data)) := by
  unfold decode_jwt
  cases h : f tok s a with
  | error e => simp
  | ok data =>
    dsimp only
    split_ifs with h1 h2 h3 h4 <;> simp_all <;> tauto

/-- Every successful `decode_jwt` output carries the `jti`, identity,
`type` and user-claims keys, with an acceptable `type` value. -/
theorem decode_jwt_ok_invariant {f : JwtDecode} {tok s a ik uk : String}
    {out : Payload} (h : decode_jwt f tok s a ik uk = Except.ok out) :
    hasKey out "jti" = true ∧ hasKey out ik = true ∧
    typeClaimOk out = true ∧ hasKey out uk = true := by
  rw [decode_jwt_ok_iff] at h
  obtain ⟨data, _, h1, h2, h3, hcase⟩ := h
  rcases hcase with ⟨huc, rfl⟩ | ⟨huc, rfl⟩
  · refine ⟨?_, ?_, typeClaimOk_append _ h3, ?_⟩
    · rw [hasKey_append, h1]; rfl
    · rw [hasKey_append, h2]; rfl
    · rw [hasKey_append, huc]
      simp [hasKey, pyLookup]
  · exact ⟨h1, h2, h3, huc⟩

/-- A successful `decode_jwt` output preserves the decoded payload's
`type` binding. -/
theorem decode_jwt_ok_type_lookup {f : JwtDecode} {tok s a ik uk : String}
    {data out : Payload} {v : JVal}
    (h : decode_jwt f tok s a ik uk = Except.ok out)
    (hf : f tok s a = Except.ok data)
    (hty : pyLookup data "type" = some v) :
    pyLookup out "type" = some v := by
  rw [decode_jwt_ok_iff] at h
  obtain ⟨data2, hf2, _, _, _, hcase⟩ := h
  rw [hf] at hf2
  injection hf2 with hdd
  subst hdd
  rcases hcase with ⟨_, rfl⟩ | ⟨_, rfl⟩
  · exact pyLookup_append_of_some _ hty
  · exact hty

/-- When the structural decode and the three claim checks succeed,
`decode_jwt` succeeds, and the output's `type` binding is the decoded
payload's. -/
theorem decode_jwt_ok_of_checks (f : JwtDecode) (tok s a ik uk : String)
    {data : Payload} (hdec : f tok s a = Except.ok data)
    (hjti : hasKey data "jti" = true) (hik : hasKey data ik = true)
    (hty : typeClaimOk data = true) :
    ∃ out, decode_jwt f tok s a ik uk = Except.ok out ∧
      ∀ v, pyLookup data "type" = some v → pyLookup out "type" = some v := by
  cases huc : hasKey data uk with
  | false =>
    refine ⟨data ++ [(uk, JVal.obj [])], ?_, fun v hv => pyLookup_append_of_some _ hv⟩
    rw [decode_jwt_ok_iff]
    exact ⟨data, hdec, hjti, hik, hty, Or.inl ⟨huc, rfl⟩⟩
  | true =>
    refine ⟨data, ?_, fun v hv => hv⟩
    rw [decode_jwt_ok_iff]
    exact ⟨data, hdec, hjti, hik, hty, Or.inr ⟨huc, rfl⟩⟩

/-- Characterization of the successful runs of `get_jwt_data`: the decode
succeeded and the resulting claim set's `type` claim equals the expected
token type. -/
theorem get_jwt_data_ok_iff (f : JwtDecode) (cfg : Config)
    (token tt : String) (out : Payload) :
    get_jwt_data f cfg token tt = Except.ok out ↔
      decode_jwt f token cfg.JWT_SECRET_KEY "HS256" cfg.JWT_IDENTITY_CLAIM
          cfg.JWT_USER_CLAIMS = Except.ok out ∧
      pyLookup out "type" = some (JVal.str tt) := by
  unfold get_jwt_data
  cases h : decode_jwt f token cfg.JWT_SECRET_KEY "HS256"
      cfg.JWT_IDENTITY_CLAIM cfg.JWT_USER_CLAIMS with
  | error e => simp
  | ok jd =>
    dsimp only
    cases hty : pyLookup jd "type" with
    | none =>
      dsimp only
      constructor
      · intro hc; exact absurd hc (by simp)
      · rintro ⟨hout, hl⟩
        injection hout with hout
        subst hout
        rw [hty] at hl
        cases hl
    | some tv =>
      dsimp only
      split_ifs with hv
      · constructor
        · intro hc; exact absurd hc (by simp)
        · rintro ⟨hout, hl⟩
          injection hout with hout
          subst hout
          rw [hty] at hl
          injection hl with hl
          rw [hl] at hv
          simp [jvalEqStr] at hv
      · have htv : tv = JVal.str tt := by
          rw [← jvalEqStr_eq_true]
          cases hb : jvalEqStr tv tt
          · exact absurd hb hv
          · rfl
        subst htv
        constructor
        · intro hc
          refine ⟨hc, ?_⟩
          injection hc with hc
          subst hc
          exact hty
        · exact fun hc => hc.1

/-- When the decoded claim set's `type` claim does not equal the expected
token type, `get_jwt_data` fails with the `WrongTokenError` that names the
expected type. -/
theorem get_jwt_data_type_mismatch {f : JwtDecode} {cfg : Config}
    {token tt : String} {out : Payload} {v : JVal}
    (hdec : decode_jwt f token cfg.JWT_SECRET_KEY "HS256"
        cfg.JWT_IDENTITY_CLAIM cfg.JWT_USER_CLAIMS = Except.ok out)
    (hty : pyLookup out "type" = some v) (hv : jvalEqStr v tt = false) :
    get_jwt_data f cfg token tt =
      Except.error (AuthError.wrongTokenError
        ("Only " ++ tt ++ " tokens are allowed")) := by
  unfold get_jwt_data
  rw [hdec]
  dsimp only
  rw [hty]
  simp [hv]

/-- A decode failure inside `get_jwt_data` propagates unchanged. -/
theorem get_jwt_data_error_of_decode {f : JwtDecode} {cfg : Config}
    {token tt : String} {e : AuthError}
    (hdec : decode_jwt f token cfg.JWT_SECRET_KEY "HS256"
        cfg.JWT_IDENTITY_CLAIM cfg.JWT_USER_CLAIMS = Except.error e) :
    get_jwt_data f cfg token tt = Except.error e := by
  unfold get_jwt_data
  rw [hdec]

/-! ### Concrete fixtures for evaluated runs -/

/-- A sample configuration. -/
def cfg0 : Config :=
  { JWT_SECRET_KEY := "s3cret", JWT_IDENTITY_CLAIM := "identity",
    JWT_USER_CLAIMS := "user_claims", JWT_TOKEN_ARGUMENT_NAME := "token",
    JWT_ALGORITHM := "HS256" }

/-- A fully populated access-token payload. -/
def accessPayload : Payload :=
  [("jti", JVal.str "abc123"), ("identity", JVal.str "user1"),
   ("type", JVal.str "access"),
   ("user_claims", JVal.obj [("role", JVal.str "admin")])]

/-- A refresh-token payload that carries no user-claims field. -/
def refreshPayload : Payload :=
  [("jti", JVal.str "r1"), ("identity", JVal.str "user1"),
   ("type", JVal.str "refresh")]

/-! ### Composition lemmas for the guard wrappers -/

theorem jwt_required_error_of_get {A R : Type} (f : JwtDecode) (cfg : Config)
    (fn : Ctx → A → Kwargs → R) (args : A) (kwargs : Kwargs) (ctx : Ctx)
    {token : String} {e : AuthError}
    (htok : pyLookup kwargs cfg.JWT_TOKEN_ARGUMENT_NAME = some token)
    (h : get_jwt_data f cfg token "access" = Except.error e) :
    jwt_required f cfg fn args kwargs ctx = Except.error e := by
  unfold jwt_required verify_jwt_in_argument
  rw [htok]
  dsimp only
  rw [h]

theorem jwt_required_ok_of_get {A R : Type} (f : JwtDecode) (cfg : Config)
    (fn : Ctx → A → Kwargs → R) (args : A) (kwargs : Kwargs) (ctx : Ctx)
    {token : String} {jd : Payload}
    (htok : pyLookup kwargs cfg.JWT_TOKEN_ARGUMENT_NAME = some token)
    (h : get_jwt_data f cfg token "access" = Except.ok jd) :
    jwt_required f cfg fn args kwargs ctx =
      Except.ok ({ ctx with jwt := some jd },
        fn { ctx with jwt := some jd } args kwargs) := by
  unfold jwt_required verify_jwt_in_argument
  rw [htok]
  dsimp only
  rw [h]

theorem jwt_refresh_required_error_of_get {A R : Type} (f : JwtDecode)
    (cfg : Config) (fn : Ctx → A → Kwargs → R) (args : A) (kwargs : Kwargs)
    (ctx : Ctx) {token : String} {e : AuthError}
    (htok : pyLookup kwargs cfg.JWT_TOKEN_ARGUMENT_NAME = some token)
    (h : get_jwt_data f cfg token "refresh" = Except.error e) :
    jwt_refresh_token_required f cfg fn args kwargs ctx = Except.error e := by
  unfold jwt_refresh_token_required verify_refresh_jwt_in_argument
  rw [htok]
  dsimp only
  rw [h]

theorem jwt_refresh_required_ok_of_get {A R : Type} (f : JwtDecode)
    (cfg : Config) (fn : Ctx → A → Kwargs → R) (args : A) (kwargs : Kwargs)
    (ctx : Ctx) {token : String} {jd : Payload}
    (htok : pyLookup kwargs cfg.JWT_TOKEN_ARGUMENT_NAME = some token)
    (h : get_jwt_data f cfg token "refresh" = Except.ok jd) :
    jwt_refresh_token_required f cfg fn args kwargs ctx =
      Except.ok ({ ctx with jwt := some jd },
        fn { ctx with jwt := some jd } args kwargs) := by
  unfold jwt_refresh_token_required verify_refresh_jwt_in_argument
  rw [htok]
  dsimp only
  rw [h]

/-! ### Claims -/

/-- C2: after a structurally successful decode, `decode_jwt` checks the
required claims in the order `jti`, then the configured identity claim
key, then a present and recognized `type`; the first failing check
determines the `JWTDecodeError` message, which names the missing or
invalid claim. -/
theorem decode_jwt_checks_in_order (f : JwtDecode) (tok s a ik uk : String)
    (data : Payload) (hdec : f tok s a = Except.ok data) :
    (hasKey data "jti" = false →
      decode_jwt f tok s a ik uk =
        Except.error (AuthError.jwtDecodeError "Missing claim: jti")) ∧
    (hasKey data "jti" = true → hasKey data ik = false →
      decode_jwt f tok s a ik uk =
        Except.error (AuthError.jwtDecodeError ("Missing claim: " ++ ik))) ∧
    (hasKey data "jti" = true → hasKey data ik = true →
      typeClaimOk data = false →
      decode_jwt f tok s a ik uk =
        Except.error (AuthError.jwtDecodeError
          "Missing or invalid claim: type")) := by
  unfold decode_jwt
  rw [hdec]
  dsimp only
  refine ⟨?_, ?_, ?_⟩ <;> intros <;> simp_all

/-- Evaluated instance of `decode_jwt_checks_in_order`: a payload missing
both `jti` and the identity claim is reported with the `jti` message. -/
theorem decode_jwt_checks_in_order_witness :
    hasKey [("type", JVal.str "access")] "jti" = false ∧
    decode_jwt (fun _ _ _ => Except.ok [("type", JVal.str "access")])
        "t" "s3cret" "HS256" "identity" "user_claims" =
      Except.error (AuthError.jwtDecodeError "Missing claim: jti") :=
  ⟨rfl, (decode_jwt_checks_in_order
    (fun _ _ _ => Except.ok [("type", JVal.str "access")])
    "t" "s3cret" "HS256" "identity" "user_claims"
    [("type", JVal.str "access")] rfl).1 rfl⟩

/-- C5: a payload that passes the `jti`, identity and `type` checks but
lacks the user-claims key decodes successfully with that key bound to an
empty mapping. -/
theorem decode_jwt_fills_user_claims_default (f : JwtDecode)
    (tok s a ik uk : String) (data : Payload)
    (hdec : f tok s a = Except.ok data)
    (hjti : hasKey data "jti" = true) (hik : hasKey data ik = true)
    (hty : typeClaimOk data = true) (huc : hasKey data uk = false) :
    decode_jwt f tok s a ik uk =
      Except.ok (data ++ [(uk, JVal.obj [])]) ∧
    pyLookup (data ++ [(uk, JVal.obj [])]) uk = some (JVal.obj []) := by
  constructor
  · rw [decode_jwt_ok_iff]
    exact ⟨data, hdec, hjti, hik, hty, Or.inl ⟨huc, rfl⟩⟩
  · rw [pyLookup_append]
    cases hl : pyLookup data uk with
    | none => simp [pyLookup]
    | some v =>
      unfold hasKey at huc
      rw [hl] at huc
      simp at huc

/-- Evaluated instance of `decode_jwt_fills_user_claims_default` on the
refresh payload without user claims. -/
theorem decode_jwt_fills_user_claims_default_witness :
    hasKey refreshPayload "user_claims" = false ∧
    decode_jwt (fun _ _ _ => Except.ok refreshPayload)
        "t" "s3cret" "HS256" "identity" "user_claims" =
      Except.ok (refreshPayload ++ [("user_claims", JVal.obj [])]) ∧
    pyLookup (refreshPayload ++ [("user_claims", JVal.obj [])])
        "user_claims" = some (JVal.obj []) := by
  have h := decode_jwt_fills_user_claims_default
    (fun _ _ _ => Except.ok refreshPayload)
    "t" "s3cret" "HS256" "identity" "user_claims" refreshPayload
    rfl rfl rfl rfl rfl
  exact ⟨rfl, h.1, h.2⟩

/-- C6: every claim set produced by a successful verification carries the
`jti`, identity, `type` and user-claims keys, with `type` bound to the
string `access` or `refresh`; this holds for `decode_jwt` and for the
full typed fetch `get_jwt_data`. -/
theorem verification_claim_set_invariant (f : JwtDecode) (cfg : Config)
    (tok s a ik uk token tt : String) (out out2 : Payload) :
    (decode_jwt f tok s a ik uk = Except.ok out →
      hasKey out "jti" = true ∧ hasKey out ik = true ∧
      hasKey out uk = true ∧
      (pyLookup out "type" = some (JVal.str "access") ∨
       pyLookup out "type" = some (JVal.str "refresh"))) ∧
    (get_jwt_data f cfg token tt = Except.ok out2 →
      hasKey out2 "jti" = true ∧
      hasKey out2 cfg.JWT_IDENTITY_CLAIM = true ∧
      hasKey out2 cfg.JWT_USER_CLAIMS = true ∧
      (pyLookup out2 "type" = some (JVal.str "access") ∨
       pyLookup out2 "type" = some (JVal.str "refresh"))) := by
  constructor
  · intro h
    obtain ⟨h1, h2, h3, h4⟩ := decode_jwt_ok_invariant h
    rw [typeClaimOk_true_iff] at h3
    exact ⟨h1, h2, h4, h3.symm⟩
  · intro h
    rw [get_jwt_data_ok_iff] at h
    obtain ⟨h1, h2, h3, h4⟩ := decode_jwt_ok_invariant h.1
    rw [typeClaimOk_true_iff] at h3
    exact ⟨h1, h2, h4, h3.symm⟩

/-- Evaluated instance of `verification_claim_set_invariant` on the
access payload. -/
theorem verification_claim_set_invariant_witness :
    decode_jwt (fun _ _ _ => Except.ok accessPayload)
        "t" "s3cret" "HS256" "identity" "user_claims" =
      Except.ok accessPayload ∧
    (hasKey accessPayload "jti" = true ∧
     hasKey accessPayload "identity" = true ∧
     hasKey accessPayload "user_claims" = true ∧
     (pyLookup accessPayload "type" = some (JVal.str "access") ∨
      pyLookup accessPayload "type" = some (JVal.str "refresh"))) :=
  ⟨rfl, (verification_claim_set_invariant
    (fun _ _ _ => Except.ok accessPayload) cfg0
    "t" "s3cret" "HS256" "identity" "user_claims" "t" "access"
    accessPayload accessPayload).1 rfl⟩

/-- C8: `decode_jwt` is a pure function of its declared inputs (two
invocations on the same inputs are equal), and an already validated claim
set is a fixed point of validation: any token whose structural decode
yields such a claim set re-decodes to exactly that claim set. -/
theorem decode_jwt_deterministic (f : JwtDecode) (tok s a ik uk : String) :
    decode_jwt f tok s a ik uk = decode_jwt f tok s a ik uk ∧
    (∀ c, decode_jwt f tok s a ik uk = Except.ok c →
      ∀ (g : JwtDecode) (tok2 s2 a2 : String),
        g tok2 s2 a2 = Except.ok c →
        decode_jwt g tok2 s2 a2 ik uk = Except.ok c) := by
  refine ⟨rfl, ?_⟩
  intro c h g tok2 s2 a2 hg
  obtain ⟨h1, h2, h3, h4⟩ := decode_jwt_ok_invariant h
  rw [decode_jwt_ok_iff]
  exact ⟨c, hg, h1, h2, h3, Or.inr ⟨h4, rfl⟩⟩

/-- Evaluated instance of `decode_jwt_deterministic`: the claim set
obtained from the refresh payload re-decodes to itself. -/
theorem decode_jwt_deterministic_witness :
    decode_jwt (fun _ _ _ => Except.ok refreshPayload)
        "t" "s3cret" "HS256" "identity" "user_claims" =
      Except.ok (refreshPayload ++ [("user_claims", JVal.obj [])]) ∧
    decode_jwt
        (fun _ _ _ =>
          Except.ok (refreshPayload ++ [("user_claims", JVal.obj [])]))
        "t2" "s2" "HS256" "identity" "user_claims" =
      Except.ok (refreshPayload ++ [("user_claims", JVal.obj [])]) :=
  ⟨rfl, (decode_jwt_deterministic
    (fun _ _ _ => Except.ok refreshPayload)
    "t" "s3cret" "HS256" "identity" "user_claims").2 _ rfl
    (fun _ _ _ =>
      Except.ok (refreshPayload ++ [("user_claims", JVal.obj [])]))
    "t2" "s2" "HS256" rfl⟩

/-- C1: for a validly signed token whose decoded payload carries `jti` and
the identity claim, a `type` of `refresh` makes the access guard fail
with the `WrongTokenError` naming `access` while the refresh guard
accepts, and a `type` of `access` makes the refresh guard fail with the
`WrongTokenError` naming `refresh` while the access guard accepts. -/
theorem guards_discriminate_token_type {A R : Type} (f : JwtDecode)
    (cfg : Config) (fn : Ctx → A → Kwargs → R) (args : A) (kwargs : Kwargs)
    (ctx : Ctx) (token : String) (data : Payload)
    (htok : pyLookup kwargs cfg.JWT_TOKEN_ARGUMENT_NAME = some token)
    (hdec : f token cfg.JWT_SECRET_KEY "HS256" = Except.ok data)
    (hjti : hasKey data "jti" = true)
    (hik : hasKey data cfg.JWT_IDENTITY_CLAIM = true) :
    (pyLookup data "type" = some (JVal.str "refresh") →
      jwt_required f cfg fn args kwargs ctx =
        Except.error (AuthError.wrongTokenError
          "Only access tokens are allowed") ∧
      (∃ pr, jwt_refresh_token_required f cfg fn args kwargs ctx =
        Except.ok pr)) ∧
    (pyLookup data "type" = some (JVal.str "access") →
      jwt_refresh_token_required f cfg fn args kwargs ctx =
        Except.error (AuthError.wrongTokenError
          "Only refresh tokens are allowed") ∧
      (∃ pr, jwt_required f cfg fn args kwargs ctx = Except.ok pr)) := by
  constructor
  · intro hty
    have htyok : typeClaimOk data = true :=
      (typeClaimOk_true_iff data).mpr (Or.inl hty)
    obtain ⟨out, hdout, hpres⟩ := decode_jwt_ok_of_checks f token
      cfg.JWT_SECRET_KEY "HS256" cfg.JWT_IDENTITY_CLAIM
      cfg.JWT_USER_CLAIMS hdec hjti hik htyok
    have houtty := hpres _ hty
    constructor
    · exact jwt_required_error_of_get f cfg fn args kwargs ctx htok
        (get_jwt_data_type_mismatch hdout houtty rfl)
    · have hget : get_jwt_data f cfg token "refresh" = Except.ok out := by
        rw [get_jwt_data_ok_iff]
        exact ⟨hdout, houtty⟩
      exact ⟨_, jwt_refresh_required_ok_of_get f cfg fn args kwargs ctx
        htok hget⟩
  · intro hty
    have htyok : typeClaimOk data = true :=
      (typeClaimOk_true_iff data).mpr (Or.inr hty)
    obtain ⟨out, hdout, hpres⟩ := decode_jwt_ok_of_checks f token
      cfg.JWT_SECRET_KEY "HS256" cfg.JWT_IDENTITY_CLAIM
      cfg.JWT_USER_CLAIMS hdec hjti hik htyok
    have houtty := hpres _ hty
    constructor
    · exact jwt_refresh_required_error_of_get f cfg fn args kwargs ctx htok
        (get_jwt_data_type_mismatch hdout houtty rfl)
    · have hget : get_jwt_data f cfg token "access" = Except.ok out := by
        rw [get_jwt_data_ok_iff]
        exact ⟨hdout, houtty⟩
      exact ⟨_, jwt_required_ok_of_get f cfg fn args kwargs ctx htok hget⟩

/-- Evaluated instance of `guards_discriminate_token_type`: the access
payload is rejected by the refresh guard and accepted by the access
guard. -/
theorem guards_discriminate_token_type_witness :
    jwt_refresh_token_required (fun _ _ _ => Except.ok accessPayload) cfg0
        (fun _ _ _ => (0 : Nat)) () [("token", "tok")] ⟨none⟩ =
      Except.error (AuthError.wrongTokenError
        "Only refresh tokens are allowed") ∧
    (∃ pr, jwt_required (fun _ _ _ => Except.ok accessPayload) cfg0
        (fun _ _ _ => (0 : Nat)) () [("token", "tok")] ⟨none⟩ =
      Except.ok pr) :=
  (guards_discriminate_token_type (fun _ _ _ => Except.ok accessPayload)
    cfg0 (fun _ _ _ => (0 : Nat)) () [("token", "tok")] ⟨none⟩ "tok"
    accessPayload rfl rfl rfl rfl).2 rfl

/-- C4: when the typed fetch fails with any error, the guard wrapper
returns exactly that error for every handler, so the handler body is
never invoked and no recovery happens. -/
theorem guards_abort_on_verification_failure {A R : Type} (f : JwtDecode)
    (cfg : Config) (args : A) (kwargs : Kwargs) (ctx : Ctx)
    (token : String) (e : AuthError)
    (htok : pyLookup kwargs cfg.JWT_TOKEN_ARGUMENT_NAME = some token) :
    (get_jwt_data f cfg token "access" = Except.error e →
      ∀ (fn : Ctx → A → Kwargs → R),
        jwt_required f cfg fn args kwargs ctx = Except.error e) ∧
    (get_jwt_data f cfg token "refresh" = Except.error e →
      ∀ (fn : Ctx → A → Kwargs → R),
        jwt_refresh_token_required f cfg fn args kwargs ctx =
          Except.error e) :=
  ⟨fun h fn => jwt_required_error_of_get f cfg fn args kwargs ctx htok h,
   fun h fn =>
     jwt_refresh_required_error_of_get f cfg fn args kwargs ctx htok h⟩

/-- Evaluated instance of `guards_abort_on_verification_failure`: a
library-level decode failure is forwarded unchanged by the access
guard. -/
theorem guards_abort_on_verification_failure_witness :
    jwt_required
        (fun _ _ _ =>
          Except.error (AuthError.pyJWTError "Signature verification failed"))
        cfg0 (fun _ _ _ => (1 : Nat)) () [("token", "tok")] ⟨none⟩ =
      Except.error (AuthError.pyJWTError "Signature verification failed") :=
  (guards_abort_on_verification_failure
    (fun _ _ _ =>
      Except.error (AuthError.pyJWTError "Signature verification failed"))
    cfg0 () [("token", "tok")] ⟨none⟩ "tok"
    (AuthError.pyJWTError "Signature verification failed") rfl).1 rfl _

/-- C7: a successful guarded request stores the claim set returned by the
typed fetch into the request-scoped slot and only then invokes the
handler, with the original positional and keyword arguments unchanged. -/
theorem guard_stores_claims_before_handler {A R : Type} (f : JwtDecode)
    (cfg : Config) (fn : Ctx → A → Kwargs → R) (args : A) (kwargs : Kwargs)
    (ctx ctx2 : Ctx) (r : R) :
    (jwt_required f cfg fn args kwargs ctx = Except.ok (ctx2, r) →
      ∃ token jd, pyLookup kwargs cfg.JWT_TOKEN_ARGUMENT_NAME = some token ∧
        get_jwt_data f cfg token "access" = Except.ok jd ∧
        ctx2 = { ctx with jwt := some jd } ∧ r = fn ctx2 args kwargs) ∧
    (jwt_refresh_token_required f cfg fn args kwargs ctx =
        Except.ok (ctx2, r) →
      ∃ token jd, pyLookup kwargs cfg.JWT_TOKEN_ARGUMENT_NAME = some token ∧
        get_jwt_data f cfg token "refresh" = Except.ok jd ∧
        ctx2 = { ctx with jwt := some jd } ∧ r = fn ctx2 args kwargs) := by
  constructor
  · intro h
    unfold jwt_required verify_jwt_in_argument at h
    cases htok : pyLookup kwargs cfg.JWT_TOKEN_ARGUMENT_NAME with
    | none => rw [htok] at h; exact absurd h (by simp)
    | some token =>
      rw [htok] at h
      dsimp only at h
      cases hget : get_jwt_data f cfg token "access" with
      | error e => rw [hget] at h; exact absurd h (by simp)
      | ok jd =>
        rw [hget] at h
        dsimp only at h
        simp only [Except.ok.injEq, Prod.mk.injEq] at h
        obtain ⟨hc, hr⟩ := h
        subst hc
        exact ⟨token, jd, rfl, hget, rfl, hr.symm⟩
  · intro h
    unfold jwt_refresh_token_required verify_refresh_jwt_in_argument at h
    cases htok : pyLookup kwargs cfg.JWT_TOKEN_ARGUMENT_NAME with
    | none => rw [htok] at h; exact absurd h (by simp)
    | some token =>
      rw [htok] at h
      dsimp only at h
      cases hget : get_jwt_data f cfg token "refresh" with
      | error e => rw [hget] at h; exact absurd h (by simp)
      | ok jd =>
        rw [hget] at h
        dsimp only at h
        simp only [Except.ok.injEq, Prod.mk.injEq] at h
        obtain ⟨hc, hr⟩ := h
        subst hc
        exact ⟨token, jd, rfl, hget, rfl, hr.symm⟩

/-- Evaluated instance of `guard_stores_claims_before_handler`: on the
access payload the stored slot holds the claim set and the handler, which
reads the slot and its arguments verbatim, produces the wrapper's
result. -/
theorem guard_stores_claims_before_handler_witness :
    ∃ token jd,
      pyLookup [("token", "tok")] cfg0.JWT_TOKEN_ARGUMENT_NAME =
        some token ∧
      get_jwt_data (fun _ _ _ => Except.ok accessPayload) cfg0 token
        "access" = Except.ok jd ∧
      (⟨some accessPayload⟩ : Ctx) = { (⟨none⟩ : Ctx) with jwt := some jd } ∧
      (some accessPayload, 7) =
        (fun (c : Ctx) (_ : Unit) (_ : Kwargs) => (c.jwt, 7))
          ⟨some accessPayload⟩ () [("token", "tok")] :=
  (guard_stores_claims_before_handler
    (fun _ _ _ => Except.ok accessPayload) cfg0
    (fun (c : Ctx) (_ : Unit) (_ : Kwargs) => (c.jwt, 7)) ()
    [("token", "tok")] ⟨none⟩ ⟨some accessPayload⟩
    (some accessPayload, 7)).1 rfl

/-- C10: whenever a guarded request succeeds, the value the wrapper
returns is exactly the value the handler returned. -/
theorem guard_passes_through_handler_result {A R : Type} (f : JwtDecode)
    (cfg : Config) (fn : Ctx → A → Kwargs → R) (args : A) (kwargs : Kwargs)
    (ctx ctx2 : Ctx) (r : R) :
    (jwt_required f cfg fn args kwargs ctx = Except.ok (ctx2, r) →
      r = fn ctx2 args kwargs) ∧
    (jwt_refresh_token_required f cfg fn args kwargs ctx =
        Except.ok (ctx2, r) →
      r = fn ctx2 args kwargs) := by
  constructor
  · intro h
    unfold jwt_required verify_jwt_in_argument at h
    cases htok : pyLookup kwargs cfg.JWT_TOKEN_ARGUMENT_NAME with
    | none => rw [htok] at h; exact absurd h (by simp)
    | some token =>
      rw [htok] at h
      dsimp only at h
      cases hget : get_jwt_data f cfg token "access" with
      | error e => rw [hget] at h; exact absurd h (by simp)
      | ok jd =>
        rw [hget] at h
        dsimp only at h
        simp only [Except.ok.injEq, Prod.mk.injEq] at h
        rw [← h.1, ← h.2]
  · intro h
    unfold jwt_refresh_token_required verify_refresh_jwt_in_argument at h
    cases htok : pyLookup kwargs cfg.JWT_TOKEN_ARGUMENT_NAME with
    | none => rw [htok] at h; exact absurd h (by simp)
    | some token =>
      rw [htok] at h
      dsimp only at h
      cases hget : get_jwt_data f cfg token "refresh" with
      | error e => rw [hget] at h; exact absurd h (by simp)
      | ok jd =>
        rw [hget] at h
        dsimp only at h
        simp only [Except.ok.injEq, Prod.mk.injEq] at h
        rw [← h.1, ← h.2]

/-- Evaluated instance of `guard_passes_through_handler_result` on a
handler returning the constant `41`. -/
theorem guard_passes_through_handler_result_witness :
    (41 : Nat) =
      (fun (_ : Ctx) (_ : Unit) (_ : Kwargs) => (41 : Nat))
        ⟨some accessPayload⟩ () [("token", "tok")] :=
  (guard_passes_through_handler_result
    (fun _ _ _ => Except.ok accessPayload) cfg0
    (fun _ _ _ => (41 : Nat)) () [("token", "tok")] ⟨none⟩
    ⟨some accessPayload⟩ 41).1 rfl

/-- C9: the guard wrappers read the raw token only from the keyword
arguments under the configured token-argument name; when that name is
absent both wrappers fail, for every handler, with a `KeyError` that is
neither a `JWTDecodeError` nor a `WrongTokenError`. -/
theorem guard_requires_token_kwarg {A R : Type} (f : JwtDecode)
    (cfg : Config) (args : A) (kwargs : Kwargs) (ctx : Ctx)
    (h : pyLookup kwargs cfg.JWT_TOKEN_ARGUMENT_NAME = none) :
    (∀ (fn : Ctx → A → Kwargs → R),
      jwt_required f cfg fn args kwargs ctx =
        Except.error (AuthError.keyError cfg.JWT_TOKEN_ARGUMENT_NAME) ∧
      jwt_refresh_token_required f cfg fn args kwargs ctx =
        Except.error (AuthError.keyError cfg.JWT_TOKEN_ARGUMENT_NAME)) ∧
    (∀ m,
      AuthError.keyError cfg.JWT_TOKEN_ARGUMENT_NAME ≠
        AuthError.jwtDecodeError m ∧
      AuthError.keyError cfg.JWT_TOKEN_ARGUMENT_NAME ≠
        AuthError.wrongTokenError m) := by
  refine ⟨fun fn => ⟨?_, ?_⟩,
    fun m => ⟨fun hc => AuthError.noConfusion hc,
              fun hc => AuthError.noConfusion hc⟩⟩
  · unfold jwt_required
    rw [h]
  · unfold jwt_refresh_token_required
    rw [h]

/-- Evaluated instance of `guard_requires_token_kwarg` on empty keyword
arguments. -/
theorem guard_requires_token_kwarg_witness :
    jwt_required (fun _ _ _ => Except.ok accessPayload) cfg0
        (fun _ _ _ => (0 : Nat)) () [] ⟨none⟩ =
      Except.error (AuthError.keyError "token") ∧
    jwt_refresh_token_required (fun _ _ _ => Except.ok accessPayload) cfg0
        (fun _ _ _ => (0 : Nat)) () [] ⟨none⟩ =
      Except.error (AuthError.keyError "token") :=
  (guard_requires_token_kwarg (fun _ _ _ => Except.ok accessPayload) cfg0
    () [] ⟨none⟩ rfl).1 _

/-- A decode oracle that supports only the algorithm `'HS256'`, the way a
library restricted to one allowed algorithm behaves: any other algorithm
argument fails. -/
def hs256OnlyDecode : JwtDecode := fun _ _ alg =>
  if alg = "HS256" then Except.ok accessPayload
  else Except.error (AuthError.pyJWTError "The specified alg value is not allowed")

/-- A configuration whose configured algorithm entry is `RS256`. -/
def cfgRS256 : Config :=
  { cfg0 with JWT_ALGORITHM := "RS256" }

/-- C3 counterexample: with the configured algorithm set to `RS256`,
`get_jwt_data` does not behave like the spec-modelled variant that passes
the configured algorithm to the decode step — the code hands the decode
step the constant `'HS256'` instead of the configured value. -/
theorem get_jwt_data_ignores_configured_algorithm :
    get_jwt_data hs256OnlyDecode cfgRS256 "t" "access" ≠
      get_jwt_data_cfgAlgorithm hs256OnlyDecode cfgRS256 "t" "access" := by
  intro hc
  rw [show get_jwt_data hs256OnlyDecode cfgRS256 "t" "access" =
        Except.ok accessPayload from rfl,
      show get_jwt_data_cfgAlgorithm hs256OnlyDecode cfgRS256 "t" "access" =
        Except.error (AuthError.pyJWTError
          "The specified alg value is not allowed") from rfl] at hc
  exact Except.noConfusion hc

/-- C3 (amended): the algorithm `get_jwt_data` passes to the decode step
is the constant `'HS256'`, not a configured value: the typed fetch
depends on the decode oracle only through its behavior at algorithm
`'HS256'`, is insensitive to the configured `JWT_ALGORITHM` entry, and
agrees with the spec-modelled variant exactly when that entry is
`'HS256'`.  The secret, identity-claim key and user-claims key are drawn
from the configuration. -/
theorem get_jwt_data_algorithm_fixed (f g : JwtDecode) (cfg : Config)
    (token tt a2 : String)
    (h : ∀ t s, f t s "HS256" = g t s "HS256") :
    get_jwt_data f cfg token tt = get_jwt_data g cfg token tt ∧
    get_jwt_data f cfg token tt =
      get_jwt_data f { cfg with JWT_ALGORITHM := a2 } token tt ∧
    get_jwt_data f cfg token tt =
      get_jwt_data_cfgAlgorithm f { cfg with JWT_ALGORITHM := "HS256" }
        token tt := by
  refine ⟨?_, rfl, rfl⟩
  unfold get_jwt_data decode_jwt
  rw [h token cfg.JWT_SECRET_KEY]

/-- Evaluated instance of `get_jwt_data_algorithm_fixed`: a decode oracle
restricted to `'HS256'` and one accepting every algorithm agree at
`'HS256'`, so the typed fetch cannot tell them apart. -/
theorem get_jwt_data_algorithm_fixed_witness :
    get_jwt_data hs256OnlyDecode cfg0 "t" "access" =
      get_jwt_data (fun _ _ _ => Except.ok accessPayload) cfg0 "t"
        "access" :=
  (get_jwt_data_algorithm_fixed hs256OnlyDecode
    (fun _ _ _ => Except.ok accessPayload) cfg0 "t" "access" "RS256"
    (fun _ _ => rfl)).1
